import Mathlib

/-!
Verification of the telemetrydeck-go client library.

This file gives a shallow embedding, in Lean, of the library's data model and
operations (telemetrydeck.go), and proves the specified properties about them:

- SHA-256 based user-ID hashing (hashUserId) with its concrete test vectors;
- the fallback user-ID derivation (generateUserId) over an explicit
  machine-environment record, with the MAC-address list sorted;
- client construction (NewClient) and the configuration options, with the
  userIDHash invariant;
- signal sending (SendSignal): payload injection of the standard fields,
  the synchronous error behaviour, and the background HTTP exchange with its
  diagnostic logging and response-body handling.

Machine integers are modelled as Nat with explicit reduction modulo 2^32 where
the Go code relies on 32-bit wraparound (inside SHA-256). External
collaborators (JSON marshalling, HTTP request construction, the HTTP
round-trip, the machine environment, the random session UUID) are modelled as
explicit inputs, since the code only branches on their success or failure.
-/

/-! ## SHA-256 over byte lists (bytes are Nat < 256, words are Nat < 2^32) -/

def w32 : Nat := 4294967296

def rotr32 (n x : Nat) : Nat :=
  ((x >>> n) ||| (x <<< (32 - n))) % w32

def shaCh (x y z : Nat) : Nat :=
  (x &&& y) ^^^ ((x ^^^ 4294967295) &&& z)

def shaMaj (x y z : Nat) : Nat :=
  (x &&& y) ^^^ (x &&& z) ^^^ (y &&& z)

def bigSigma0 (x : Nat) : Nat := (rotr32 2 x) ^^^ (rotr32 13 x) ^^^ (rotr32 22 x)

def bigSigma1 (x : Nat) : Nat := (rotr32 6 x) ^^^ (rotr32 11 x) ^^^ (rotr32 25 x)

def smallSigma0 (x : Nat) : Nat := (rotr32 7 x) ^^^ (rotr32 18 x) ^^^ (x >>> 3)

def smallSigma1 (x : Nat) : Nat := (rotr32 17 x) ^^^ (rotr32 19 x) ^^^ (x >>> 10)

def shaK : List Nat :=
  [1116352408, 1899447441, 3049323471, 3921009573, 961987163,
   1508970993, 2453635748, 2870763221, 3624381080, 310598401,
   607225278, 1426881987, 1925078388, 2162078206, 2614888103,
   3248222580, 3835390401, 4022224774, 264347078, 604807628,
   770255983, 1249150122, 1555081692, 1996064986, 2554220882,
   2821834349, 2952996808, 3210313671, 3336571891, 3584528711,
   113926993, 338241895, 666307205, 773529912, 1294757372,
   1396182291, 1695183700, 1986661051, 2177026350, 2456956037,
   2730485921, 2820302411, 3259730800, 3345764771, 3516065817,
   3600352804, 4094571909, 275423344, 430227734, 506948616,
   659060556, 883997877, 958139571, 1322822218, 1537002063,
   1747873779, 1955562222, 2024104815, 2227730452, 2361852424,
   2428436474, 2756734187, 3204031479, 3329325298]

def shaInit : List Nat :=
  [1779033703, 3144134277, 1013904242, 2773480762, 1359893119,
   2600822924, 528734635, 1541459225]

/-- Group a list of bytes into big-endian 32-bit words, four bytes per word. -/
def bytesToWords : List Nat → List Nat
  | b0 :: b1 :: b2 :: b3 :: rest => (b0 * 16777216 + b1 * 65536 + b2 * 256 + b3) :: bytesToWords rest
  | _ => []

/-- Extend the 16-word message schedule by n further words. -/
def extendSchedule : List Nat → Nat → List Nat
  | w, 0 => w
  | w, n + 1 =>
      let i := w.length
      let next := (smallSigma1 (w.getD (i - 2) 0) + w.getD (i - 7) 0 +
                   smallSigma0 (w.getD (i - 15) 0) + w.getD (i - 16) 0) % w32
      extendSchedule (w ++ [next]) n

structure ShaState where
  a : Nat
  b : Nat
  c : Nat
  d : Nat
  e : Nat
  f : Nat
  g : Nat
  h : Nat

def shaRound (st : ShaState) (kw : Nat × Nat) : ShaState :=
  let t1 := (st.h + bigSigma1 st.e + shaCh st.e st.f st.g + kw.1 + kw.2) % w32
  let t2 := (bigSigma0 st.a + shaMaj st.a st.b st.c) % w32
  { a := (t1 + t2) % w32, b := st.a, c := st.b, d := st.c,
    e := (st.d + t1) % w32, f := st.e, g := st.f, h := st.g }

def compressBlock (hs : List Nat) (block : List Nat) : List Nat :=
  let w := extendSchedule (bytesToWords block) 48
  let st0 : ShaState :=
    { a := hs.getD 0 0, b := hs.getD 1 0, c := hs.getD 2 0, d := hs.getD 3 0,
      e := hs.getD 4 0, f := hs.getD 5 0, g := hs.getD 6 0, h := hs.getD 7 0 }
  let st := (shaK.zip w).foldl shaRound st0
  [(hs.getD 0 0 + st.a) % w32, (hs.getD 1 0 + st.b) % w32, (hs.getD 2 0 + st.c) % w32,
   (hs.getD 3 0 + st.d) % w32, (hs.getD 4 0 + st.e) % w32, (hs.getD 5 0 + st.f) % w32,
   (hs.getD 6 0 + st.g) % w32, (hs.getD 7 0 + st.h) % w32]

/-- Standard SHA-256 padding: byte 0x80, zeros up to 56 mod 64, then the bit
length as eight big-endian bytes. -/
def padMessage (msg : List Nat) : List Nat :=
  let len := msg.length
  let bitLen := len * 8
  let zeros := (119 - len % 64) % 64
  msg ++ [128] ++ List.replicate zeros 0 ++
    [(bitLen >>> 56) % 256, (bitLen >>> 48) % 256, (bitLen >>> 40) % 256, (bitLen >>> 32) % 256,
     (bitLen >>> 24) % 256, (bitLen >>> 16) % 256, (bitLen >>> 8) % 256, bitLen % 256]

/-- Process the padded message 64 bytes at a time; the last argument counts
the 64-byte blocks remaining. -/
def processBlocks (hs : List Nat) (l : List Nat) : Nat → List Nat
  | 0 => hs
  | n + 1 => processBlocks (compressBlock hs (l.take 64)) (l.drop 64) n

def wordBytes (x : Nat) : List Nat :=
  [(x >>> 24) % 256, (x >>> 16) % 256, (x >>> 8) % 256, x % 256]

/-- SHA-256 digest of a byte list, as a list of 32 bytes. -/
def sha256 (msg : List Nat) : List Nat :=
  let padded := padMessage msg
  let hs := processBlocks shaInit padded (padded.length / 64)
  (hs.map wordBytes).flatten

def hexChar (n : Nat) : Char :=
  if n < 10 then Char.ofNat (48 + n) else Char.ofNat (87 + n)

/-- Lowercase hex encoding of a byte list, as produced by fmt.Sprintf with
the percent-x verb in Go. -/
def hexEncode (bs : List Nat) : String :=
  String.mk ((bs.map (fun b => [hexChar (b / 16), hexChar (b % 16)])).flatten)

/-- UTF-8 encoding of one character: the bytes Go obtains for it when a
string is converted to a byte slice. -/
def utf8Bytes (c : Char) : List Nat :=
  let n := c.toNat
  if n < 128 then [n]
  else if n < 2048 then [192 ||| (n >>> 6), 128 ||| (n &&& 63)]
  else if n < 65536 then [224 ||| (n >>> 12), 128 ||| ((n >>> 6) &&& 63), 128 ||| (n &&& 63)]
  else [240 ||| (n >>> 18), 128 ||| ((n >>> 12) &&& 63), 128 ||| ((n >>> 6) &&& 63), 128 ||| (n &&& 63)]

/-- The bytes of a string, mirroring the Go conversion from string to byte
slice (Go strings are UTF-8 byte sequences). -/
def strBytes (s : String) : List Nat :=
  (s.data.map utf8Bytes).flatten

/-! ## The Identity Deriver (hashUserId, generateUserId) -/

/-- From the source: hashUserId writes the bytes of id concatenated with salt
into a fresh SHA-256 hasher and formats the digest with the percent-x verb. -/
def hashUserId (id salt : String) : String :=
  hexEncode (sha256 (strBytes (id ++ salt)))

/-- Stated from the spec wording for comparison: the lowercase hex encoding of
the SHA-256 of the bytes of id with the bytes of salt appended after them,
with no separator. -/
def specHashUserID (id salt : String) : String :=
  hexEncode (sha256 (strBytes id ++ strBytes salt))

/-- Lexicographic comparison of character lists by code point. For UTF-8
encoded strings this coincides with the bytewise comparison Go's
sort.Strings uses, since UTF-8 preserves code-point order. -/
def charsLe : List Char → List Char → Bool
  | [], _ => true
  | _ :: _, [] => false
  | a :: as, b :: bs =>
      if a.toNat < b.toNat then true
      else if b.toNat < a.toNat then false
      else charsLe as bs

def strLe (a b : String) : Bool := charsLe a.data b.data

def strLeProp (a b : String) : Prop := strLe a b = true

instance decStrLeProp : DecidableRel strLeProp :=
  fun a b => inferInstanceAs (Decidable (strLe a b = true))

/-- The machine environment generateUserId reads: OS and architecture, the
hostname lookup (none when it errors), the network-interface enumeration as
the list of hardware-address strings in enumeration order (none when it
errors; interfaces without a MAC contribute the empty string), the numeric
user and group ids, and the three environment-variable lookups. -/
structure SysEnv where
  goos : String
  goarch : String
  hostname : Option String
  ifas : Option (List String)
  uid : Int
  gid : Int
  envUSER : String
  envUSERNAME : String
  envPctUSERNAME : String

/-- From the source: generateUserId concatenates, each segment preceded by a
pipe, the OS, architecture, hostname (omitted on error), the sorted
space-joined non-empty hardware addresses (omitted on error), uid, gid, and
the three environment lookups. -/
def generateUserId (e : SysEnv) : String :=
  let id := ""
  let id := id ++ "|" ++ e.goos
  let id := id ++ "|" ++ e.goarch
  let id :=
    match e.hostname with
    | some hostname => id ++ "|" ++ hostname
    | none => id
  let id :=
    match e.ifas with
    | some ifas =>
        let as := ifas.filter (fun a => a ≠ "")
        let as := List.insertionSort strLeProp as
        id ++ "|" ++ String.intercalate " " as
    | none => id
  let id := id ++ "|" ++ toString e.uid
  let id := id ++ "|" ++ toString e.gid
  let id := id ++ "|" ++ e.envUSER ++ "|" ++ e.envUSERNAME ++ "|" ++ e.envPctUSERNAME
  id

/-! ## Client Configuration -/

def defaultEndpoint : String := "https://nom.telemetrydeck.com/v2/"

/-- The constant named version in the source. -/
def version : String := "telemetrydeck-go/0.0.1"

/-- The Client struct. The http.Client field is an external collaborator and
is not part of the state the claims mention; the logger is modelled by its
presence, since the code only ever tests it against nil and writes lines to
it. -/
structure Client where
  appID : String
  endpoint : String
  hasLogger : Bool
  hashSalt : String
  userID : String
  userIDHash : String
  sessionID : String
  testMode : Bool

inductive TDError where
  | noAppID
  | noSignalType
  | marshalError (msg : String)
  | requestError (msg : String)
deriving DecidableEq

/-- The recognized configuration options (the With functions). -/
inductive ClientOption where
  | withEndpoint (e : String)
  | withLogger
  | withHashSalt (salt : String)
  | withUserID (userID : String)
  | withSessionID (sessionID : String)
  | withTestMode

/-- Application of one option to a client, as each With function's closure
mutates the client. WithHashSalt and WithUserID recompute userIDHash. -/
def applyOption (c : Client) : ClientOption → Client
  | .withEndpoint e => { c with endpoint := e }
  | .withLogger => { c with hasLogger := true }
  | .withHashSalt salt => { c with hashSalt := salt, userIDHash := hashUserId c.userID salt }
  | .withUserID u => { c with userID := u, userIDHash := hashUserId u c.hashSalt }
  | .withSessionID s => { c with sessionID := s }
  | .withTestMode => { c with testMode := true }

def applyOptions (c : Client) (opts : List ClientOption) : Client :=
  opts.foldl applyOption c

/-- The defaulted client NewClient builds before applying options; sessionUUID
stands for the freshly generated uuid string. -/
def mkDefaultClient (appID defaultUid sessionUUID : String) : Client :=
  { appID := appID, endpoint := defaultEndpoint, hasLogger := false, hashSalt := "",
    userID := defaultUid, userIDHash := hashUserId defaultUid "",
    sessionID := sessionUUID, testMode := false }

/-- NewClient: error on empty appID, otherwise defaults then the options in
order, left to right. -/
def newClient (appID : String) (opts : List ClientOption) (env : SysEnv)
    (sessionUUID : String) : Except TDError Client :=
  if appID = "" then .error .noAppID
  else .ok (applyOptions (mkDefaultClient appID (generateUserId env) sessionUUID) opts)

/-! ## Signal Assembler and Dispatcher -/

/-- A JSON-representable payload value (the payload map holds arbitrary
JSON-encodable values; this covers the shapes the claims quantify over). -/
inductive PayloadValue where
  | str (s : String)
  | int (n : Int)
  | bool (b : Bool)
deriving DecidableEq

/-- A Go map modelled as an association list without duplicate keys exposed
through setKey/getKey. -/
abbrev Payload := List (String × PayloadValue)

/-- Go map assignment: replace the binding if the key is present, else add it. -/
def setKey : Payload → String → PayloadValue → Payload
  | [], k, v => [(k, v)]
  | (k0, v0) :: rest, k, v =>
      if k0 = k then (k, v) :: rest else (k0, v0) :: setKey rest k v

/-- Go map lookup. -/
def getKey : Payload → String → Option PayloadValue
  | [], _ => none
  | (k0, v0) :: rest, k => if k0 = k then some v0 else getKey rest k

def osKey : String := "TelemetryDeck.Device.operatingSystem"

def archKey : String := "TelemetryDeck.Device.architecture"

def sdkKey : String := "TelemetryDeck.SDK.nameAndVersion"

/-- The three standard-field assignments SendSignal performs on the payload,
in source order. -/
def injectStandardFields (e : SysEnv) (p : Payload) : Payload :=
  setKey (setKey (setKey p osKey (.str e.goos)) archKey (.str e.goarch)) sdkKey (.str version)

structure SignalBody where
  appID : String
  clientUser : String
  sessionID : String
  isTestMode : Bool
  type : String
  payload : Payload
deriving DecidableEq

/-- The response of the HTTP round-trip: status code, whether a body is
present, whether reading the body to completion succeeds, and its text. -/
structure HttpResponse where
  statusCode : Nat
  hasBody : Bool
  bodyReadOk : Bool
  body : String

/-- The external collaborators of one SendSignal call: the result of
json.Marshal on the signals array, the result of http.NewRequest, and the
outcome of httpClient.Do (its error and its response). -/
structure DispatchEnv where
  marshalResult : Except String String
  requestResult : Except String Unit
  doErr : Option String
  doResp : Option HttpResponse

/-- What the background goroutine did: the lines written to the logger, and
whether the response body was closed and whether io.ReadAll was run on it. -/
structure BgTrace where
  logLines : List String
  bodyClosed : Bool
  bodyRead : Bool

/-- The background goroutine of SendSignal: log the transport error if any,
warn and stop on a nil response, defer closing the body if present, and in
test mode with a logger log status, request body, and, when reading it
succeeds, the response body, for statuses of 400 and above. -/
def background (c : Client) (reqBody : String) (doErr : Option String)
    (doResp : Option HttpResponse) : BgTrace :=
  let errLines :=
    match doErr with
    | some e => if c.hasLogger then ["error submitting HTTP request: " ++ e] else []
    | none => []
  match doResp with
  | none =>
      let warnLines :=
        if c.hasLogger then ["warning - telemetrydeck.Client.SendSignal resulted in no response"]
        else []
      { logLines := errLines ++ warnLines, bodyClosed := false, bodyRead := false }
  | some resp =>
      let diagLines :=
        if 400 ≤ resp.statusCode ∧ c.testMode ∧ c.hasLogger then
          ["response status: " ++ toString resp.statusCode, "request body: " ++ reqBody] ++
            (if resp.bodyReadOk then ["response body: " ++ resp.body] else [])
        else []
      { logLines := errLines ++ diagLines,
        bodyClosed := resp.hasBody,
        bodyRead := decide (400 ≤ resp.statusCode ∧ c.testMode ∧ c.hasLogger) }

/-- Everything one SendSignal call does: the value returned to the caller,
whether the request was dispatched, the payload map the caller's reference
sees after the call (none when the caller passed nil), the signals array
handed to json.Marshal, the payload actually transmitted, and the trace of
the background goroutine. -/
structure SendOutcome where
  result : Except TDError Unit
  dispatched : Bool
  callerPayloadAfter : Option Payload
  signalsBuilt : Option (List SignalBody)
  sentPayload : Option Payload
  bg : Option BgTrace

/-- SendSignal: reject an empty signal type; replace a nil payload by an empty
map; inject the standard fields (mutating the caller's map when one was
passed); build the single-signal array; marshal and build the request,
returning their errors synchronously; then dispatch and return nil, with the
HTTP exchange left to the background goroutine. -/
def sendSignal (e : SysEnv) (c : Client) (signalType : String) (payload : Option Payload)
    (d : DispatchEnv) : SendOutcome :=
  if signalType = "" then
    { result := .error .noSignalType, dispatched := false, callerPayloadAfter := payload,
      signalsBuilt := none, sentPayload := none, bg := none }
  else
    let basePayload := match payload with | none => [] | some p => p
    let augmented := injectStandardFields e basePayload
    let callerAfter := match payload with | none => none | some _ => some augmented
    let signal : SignalBody :=
      { appID := c.appID, clientUser := c.userIDHash, sessionID := c.sessionID,
        isTestMode := c.testMode, type := signalType, payload := augmented }
    let signals := [signal]
    match d.marshalResult with
    | .error msg =>
        { result := .error (.marshalError msg), dispatched := false,
          callerPayloadAfter := callerAfter, signalsBuilt := some signals,
          sentPayload := none, bg := none }
    | .ok body =>
        match d.requestResult with
        | .error msg =>
            { result := .error (.requestError msg), dispatched := false,
              callerPayloadAfter := callerAfter, signalsBuilt := some signals,
              sentPayload := none, bg := none }
        | .ok _ =>
            { result := .ok (), dispatched := true,
              callerPayloadAfter := callerAfter, signalsBuilt := some signals,
              sentPayload := some augmented,
              bg := some (background c body d.doErr d.doResp) }

/-! ## Concrete fixtures used by witnesses and counterexamples -/

def envEx : SysEnv :=
  { goos := "linux", goarch := "amd64", hostname := some "host",
    ifas := some ["02:42:ac:11:00:02", "00:16:3e:2a:7c:01"], uid := 1000, gid := 1000,
    envUSER := "user", envUSERNAME := "", envPctUSERNAME := "" }

def clientEx : Client :=
  { appID := "my-app-id", endpoint := defaultEndpoint, hasLogger := true, hashSalt := "",
    userID := "somebody@example.com", userIDHash := "h", sessionID := "sess",
    testMode := true }

def dispatchOkEx : DispatchEnv :=
  { marshalResult := .ok "[]", requestResult := .ok (), doErr := none,
    doResp := some { statusCode := 200, hasBody := true, bodyReadOk := true, body := "" } }

def respReadFailEx : HttpResponse :=
  { statusCode := 500, hasBody := true, bodyReadOk := false, body := "boom" }

def respOkEx : HttpResponse :=
  { statusCode := 200, hasBody := true, bodyReadOk := true, body := "fine" }

def respBadEx : HttpResponse :=
  { statusCode := 500, hasBody := true, bodyReadOk := true, body := "err" }

/-- An environment in which every fallible sub-lookup failed and every
environment variable is unset. -/
def envAllFailEx : SysEnv :=
  { goos := "", goarch := "", hostname := none, ifas := none, uid := 0, gid := 0,
    envUSER := "", envUSERNAME := "", envPctUSERNAME := "" }

/-! ## Helper lemmas -/

theorem charToNat_inj {a b : Char} (h : a.toNat = b.toNat) : a = b := by
  apply Char.ext
  apply UInt32.ext
  simpa [Char.toNat] using h

theorem charsLe_total : ∀ (x y : List Char), charsLe x y = true ∨ charsLe y x = true
  | [], _ => Or.inl rfl
  | _ :: _, [] => Or.inr rfl
  | a :: as, b :: bs => by
      rcases Nat.lt_trichotomy a.toNat b.toNat with hab | hab | hab
      · left; simp [charsLe, hab]
      · rcases charsLe_total as bs with h2 | h2
        · left; simp [charsLe, hab, Nat.lt_irrefl, h2]
        · right; simp [charsLe, hab, Nat.lt_irrefl, h2]
      · right; simp [charsLe, hab]

theorem charsLe_trans : ∀ (x y z : List Char),
    charsLe x y = true → charsLe y z = true → charsLe x z = true
  | [], _, _, _, _ => rfl
  | _ :: _, [], _, h1, _ => by simp [charsLe] at h1
  | _ :: _, _ :: _, [], _, h2 => by simp [charsLe] at h2
  | a :: as, b :: bs, c :: cs, h1, h2 => by
      simp only [charsLe] at h1 h2 ⊢
      by_cases hab : a.toNat < b.toNat
      · by_cases hbc : b.toNat < c.toNat
        · have hac : a.toNat < c.toNat := by omega
          simp [hac]
        · by_cases hcb : c.toNat < b.toNat
          · simp [hbc, hcb] at h2
          · have hac : a.toNat < c.toNat := by omega
            simp [hac]
      · by_cases hba : b.toNat < a.toNat
        · simp [hab, hba] at h1
        · by_cases hbc : b.toNat < c.toNat
          · have hac : a.toNat < c.toNat := by omega
            simp [hac]
          · by_cases hcb : c.toNat < b.toNat
            · simp [hbc, hcb] at h2
            · have hnac : ¬ a.toNat < c.toNat := by omega
              have hnca : ¬ c.toNat < a.toNat := by omega
              simp [hab, hba] at h1
              simp [hbc, hcb] at h2
              simp [hnac, hnca]
              exact charsLe_trans as bs cs h1 h2

theorem charsLe_antisymm : ∀ (x y : List Char),
    charsLe x y = true → charsLe y x = true → x = y
  | [], [], _, _ => rfl
  | [], _ :: _, _, h2 => by simp [charsLe] at h2
  | _ :: _, [], h1, _ => by simp [charsLe] at h1
  | a :: as, b :: bs, h1, h2 => by
      simp only [charsLe] at h1 h2
      rcases Nat.lt_trichotomy a.toNat b.toNat with hab | hab | hab
      · simp only [hab, if_true, if_false] at h2
        have : ¬ b.toNat < a.toNat := by omega
        simp [this, hab] at h2
      · have heq : a = b := charToNat_inj hab
        have hnl : ¬ a.toNat < b.toNat := by omega
        have hnr : ¬ b.toNat < a.toNat := by omega
        simp only [hnl, hnr, if_false] at h1 h2
        rw [heq, charsLe_antisymm as bs h1 h2]
      · simp only [hab, if_true, if_false] at h1
        have : ¬ a.toNat < b.toNat := by omega
        simp [this, hab] at h1

theorem strLe_total (a b : String) : strLeProp a b ∨ strLeProp b a :=
  charsLe_total a.data b.data

theorem strLe_trans (a b c : String) : strLeProp a b → strLeProp b c → strLeProp a c :=
  charsLe_trans a.data b.data c.data

theorem strLe_antisymm (a b : String) : strLeProp a b → strLeProp b a → a = b :=
  fun h1 h2 => String.ext (charsLe_antisymm a.data b.data h1 h2)

theorem insertionSort_eq_of_perm {l₁ l₂ : List String} (h : l₁.Perm l₂) :
    List.insertionSort strLeProp l₁ = List.insertionSort strLeProp l₂ := by
  haveI : IsTotal String strLeProp := ⟨strLe_total⟩
  haveI : IsTrans String strLeProp := ⟨strLe_trans⟩
  haveI : IsAntisymm String strLeProp := ⟨strLe_antisymm⟩
  exact List.eq_of_perm_of_sorted
    ((List.perm_insertionSort _ _).trans (h.trans (List.perm_insertionSort _ _).symm))
    (List.sorted_insertionSort _ _) (List.sorted_insertionSort _ _)

theorem strBytes_append (a b : String) : strBytes (a ++ b) = strBytes a ++ strBytes b := by
  simp [strBytes, String.data_append]

theorem getKey_setKey_same (m : Payload) (k : String) (v : PayloadValue) :
    getKey (setKey m k v) k = some v := by
  induction m with
  | nil => simp [setKey, getKey]
  | cons kv rest ih =>
      obtain ⟨k0, v0⟩ := kv
      by_cases h : k0 = k
      · simp [setKey, getKey, h]
      · simp [setKey, getKey, h, ih]

theorem getKey_setKey_ne (m : Payload) (k k' : String) (v : PayloadValue) (h : k ≠ k') :
    getKey (setKey m k v) k' = getKey m k' := by
  induction m with
  | nil => simp [setKey, getKey, h]
  | cons kv rest ih =>
      obtain ⟨k0, v0⟩ := kv
      by_cases h0 : k0 = k
      · subst h0
        simp [setKey, getKey, h]
      · by_cases h1 : k0 = k'
        · simp [setKey, getKey, h0, h1, Ne.symm h]
        · simp [setKey, getKey, h0, h1, ih]

theorem hashInv_applyOptions (c : Client) (opts : List ClientOption)
    (h : c.userIDHash = hashUserId c.userID c.hashSalt) :
    (applyOptions c opts).userIDHash
      = hashUserId (applyOptions c opts).userID (applyOptions c opts).hashSalt := by
  induction opts generalizing c with
  | nil => exact h
  | cons o rest ih =>
      have hstep : (applyOption c o).userIDHash
          = hashUserId (applyOption c o).userID (applyOption c o).hashSalt := by
        cases o <;> simp [applyOption, h]
      exact ih (applyOption c o) hstep

/-! ## The claims -/

/-- Claim C1: after construction with any defaults and after applying any
sequence of configuration options, userIDHash equals hashUserId of the
current userID and hashSalt; in particular applying WithUserID and
WithHashSalt in either order leaves userIDHash equal to hashUserId of the
final userID and hashSalt. -/
theorem userIDHash_invariant (appID : String) (env : SysEnv) (sid : String)
    (opts : List ClientOption) (c0 : Client) (u s : String) :
    ((applyOptions (mkDefaultClient appID (generateUserId env) sid) opts).userIDHash
      = hashUserId (applyOptions (mkDefaultClient appID (generateUserId env) sid) opts).userID
          (applyOptions (mkDefaultClient appID (generateUserId env) sid) opts).hashSalt)
    ∧ (applyOptions c0 [.withUserID u, .withHashSalt s]).userIDHash = hashUserId u s
    ∧ (applyOptions c0 [.withHashSalt s, .withUserID u]).userIDHash = hashUserId u s := by
  refine ⟨hashInv_applyOptions _ opts (by simp [mkDefaultClient]), ?_, ?_⟩ <;>
    simp [applyOptions, applyOption]

/-- Claim C2: hashUserId is the lowercase hex encoding of the SHA-256 of the
id bytes with the salt bytes appended after them and no separator, and it
takes the documented values on the two test vectors. -/
theorem hashUserId_correct :
    (∀ id salt, hashUserId id salt = specHashUserID id salt)
    ∧ hashUserId "somebody@example.com" "MySalt"
        = "c05dc5334d83cca7382bca040f2f6e9de56d57d22814cfc4c39b5a55dbc9ef16"
    ∧ hashUserId "somebody@example.com" ""
        = "787d5b7c06ca0a21c96436cc7c8117e6fe046d0fd7dedcae8c93bfc14b8e5df7" :=
  ⟨fun id salt => by unfold hashUserId specHashUserID; rw [strBytes_append],
   by decide, by decide⟩

/-- Claim C4: NewClient fails with the no-app-ID error on the empty appID and
succeeds for every non-empty appID under any option sequence. -/
theorem newClient_appID_check (opts : List ClientOption) (env : SysEnv) (sid : String) :
    newClient "" opts env sid = .error .noAppID
    ∧ ∀ appID : String, appID ≠ "" → ∃ c, newClient appID opts env sid = .ok c := by
  constructor
  · simp [newClient]
  · intro appID h
    exact ⟨applyOptions (mkDefaultClient appID (generateUserId env) sid) opts,
      by simp [newClient, h]⟩

/-- Witness for newClient_appID_check at a concrete non-empty appID. -/
theorem newClient_appID_check_witness :
    (("my-app-id" : String) ≠ "")
    ∧ newClient "" [] envEx "sess" = .error .noAppID
    ∧ ∃ c, newClient "my-app-id" [] envEx "sess" = .ok c :=
  ⟨by decide, (newClient_appID_check [] envEx "sess").1,
   (newClient_appID_check [] envEx "sess").2 "my-app-id" (by decide)⟩

/-- Claim C5: SendSignal with an empty signal type returns the no-signal-type
error synchronously; nothing is marshalled, no request is built or
dispatched, the caller's payload is untouched and no background work runs. -/
theorem sendSignal_empty_type (e : SysEnv) (c : Client) (p : Option Payload) (d : DispatchEnv) :
    sendSignal e c "" p d =
      { result := .error .noSignalType, dispatched := false, callerPayloadAfter := p,
        signalsBuilt := none, sentPayload := none, bg := none } := rfl

/-- Claim C3: when the signal type is non-empty and both marshalling and
request construction succeed, SendSignal returns nil to the caller, whatever
the outcome of the network exchange recorded in the dispatch environment. -/
theorem sendSignal_returns_ok (e : SysEnv) (c : Client) (st : String) (p : Option Payload)
    (d : DispatchEnv) (b : String) (h1 : st ≠ "") (h2 : d.marshalResult = .ok b)
    (h3 : d.requestResult = .ok ()) :
    (sendSignal e c st p d).result = .ok () := by
  simp [sendSignal, h1, h2, h3]

/-- Witness for sendSignal_returns_ok on concrete inputs. -/
theorem sendSignal_returns_ok_witness :
    (("t" : String) ≠ "")
    ∧ dispatchOkEx.marshalResult = .ok "[]"
    ∧ dispatchOkEx.requestResult = .ok ()
    ∧ (sendSignal envEx clientEx "t" none dispatchOkEx).result = .ok () :=
  ⟨by decide, rfl, rfl,
   sendSignal_returns_ok envEx clientEx "t" none dispatchOkEx "[]" (by decide) rfl rfl⟩

/-- Claim C6: with a nil payload the transmitted payload is exactly the three
injected standard fields; with a caller payload it is the caller's map with
the three standard fields written over it, injected values winning on
collision. -/
theorem sendSignal_standard_fields (e : SysEnv) (c : Client) (st : String)
    (d : DispatchEnv) (b : String) (h1 : st ≠ "") (h2 : d.marshalResult = .ok b)
    (h3 : d.requestResult = .ok ()) :
    (sendSignal e c st none d).sentPayload =
      some [(osKey, .str e.goos), (archKey, .str e.goarch), (sdkKey, .str version)]
    ∧ ∀ p : Payload,
        (sendSignal e c st (some p) d).sentPayload = some (injectStandardFields e p)
        ∧ ∀ k, getKey (injectStandardFields e p) k =
            if k = sdkKey then some (.str version)
            else if k = archKey then some (.str e.goarch)
            else if k = osKey then some (.str e.goos)
            else getKey p k := by
  refine ⟨?_, fun p => ⟨?_, fun k => ?_⟩⟩
  · simp [sendSignal, h1, h2, h3]
    rfl
  · simp [sendSignal, h1, h2, h3]
  · unfold injectStandardFields
    by_cases hk3 : k = sdkKey
    · subst hk3
      simp [getKey_setKey_same]
    · rw [getKey_setKey_ne _ _ _ _ (Ne.symm hk3)]
      by_cases hk2 : k = archKey
      · subst hk2
        simp [getKey_setKey_same, hk3]
      · rw [getKey_setKey_ne _ _ _ _ (Ne.symm hk2)]
        by_cases hk1 : k = osKey
        · subst hk1
          simp [getKey_setKey_same, hk3, hk2]
        · rw [getKey_setKey_ne _ _ _ _ (Ne.symm hk1)]
          simp [hk3, hk2, hk1]

/-- Witness for sendSignal_standard_fields on concrete inputs. -/
theorem sendSignal_standard_fields_witness :
    (("t" : String) ≠ "")
    ∧ (sendSignal envEx clientEx "t" none dispatchOkEx).sentPayload =
        some [(osKey, .str "linux"), (archKey, .str "amd64"), (sdkKey, .str version)]
    ∧ (sendSignal envEx clientEx "t" (some [("k", .int 7)]) dispatchOkEx).sentPayload =
        some (injectStandardFields envEx [("k", .int 7)]) :=
  ⟨by decide,
   (sendSignal_standard_fields envEx clientEx "t" dispatchOkEx "[]" (by decide) rfl rfl).1,
   ((sendSignal_standard_fields envEx clientEx "t" dispatchOkEx "[]" (by decide) rfl rfl).2
     [("k", .int 7)]).1⟩

/-- Claim C10: sending with a caller-supplied map writes the three standard
keys into the caller's own map with the library's values, and no other key
of the caller's map is added, removed or changed. -/
theorem sendSignal_mutates_caller (e : SysEnv) (c : Client) (st : String) (p : Payload)
    (d : DispatchEnv) (h1 : st ≠ "") :
    (sendSignal e c st (some p) d).callerPayloadAfter = some (injectStandardFields e p)
    ∧ getKey (injectStandardFields e p) osKey = some (.str e.goos)
    ∧ getKey (injectStandardFields e p) archKey = some (.str e.goarch)
    ∧ getKey (injectStandardFields e p) sdkKey = some (.str version)
    ∧ ∀ k, k ≠ osKey → k ≠ archKey → k ≠ sdkKey →
        getKey (injectStandardFields e p) k = getKey p k := by
  refine ⟨?_, ?_, ?_, ?_, fun k hk1 hk2 hk3 => ?_⟩
  · rcases hm : d.marshalResult with m | b2
    · simp [sendSignal, h1, hm]
    · rcases hr : d.requestResult with r | u
      · simp [sendSignal, h1, hm, hr]
      · simp [sendSignal, h1, hm, hr]
  · unfold injectStandardFields
    rw [getKey_setKey_ne _ _ _ _ (by decide : sdkKey ≠ osKey),
        getKey_setKey_ne _ _ _ _ (by decide : archKey ≠ osKey),
        getKey_setKey_same]
  · unfold injectStandardFields
    rw [getKey_setKey_ne _ _ _ _ (by decide : sdkKey ≠ archKey),
        getKey_setKey_same]
  · unfold injectStandardFields
    rw [getKey_setKey_same]
  · unfold injectStandardFields
    rw [getKey_setKey_ne _ _ _ _ (Ne.symm hk3),
        getKey_setKey_ne _ _ _ _ (Ne.symm hk2),
        getKey_setKey_ne _ _ _ _ (Ne.symm hk1)]

/-- Witness for sendSignal_mutates_caller on concrete inputs. -/
theorem sendSignal_mutates_caller_witness :
    (("t" : String) ≠ "")
    ∧ (("k" : String) ≠ osKey)
    ∧ (sendSignal envEx clientEx "t" (some [("k", .int 7)]) dispatchOkEx).callerPayloadAfter =
        some (injectStandardFields envEx [("k", .int 7)])
    ∧ getKey (injectStandardFields envEx [("k", .int 7)]) osKey = some (.str "linux")
    ∧ getKey (injectStandardFields envEx [("k", .int 7)]) "k" = some (.int 7) := by
  refine ⟨by decide, by decide,
    (sendSignal_mutates_caller envEx clientEx "t" [("k", .int 7)] dispatchOkEx (by decide)).1,
    (sendSignal_mutates_caller envEx clientEx "t" [("k", .int 7)] dispatchOkEx (by decide)).2.1,
    ?_⟩
  have h := (sendSignal_mutates_caller envEx clientEx "t" [("k", .int 7)] dispatchOkEx
    (by decide)).2.2.2.2 "k" (by decide) (by decide) (by decide)
  rw [h]
  rfl

/-- Counterexample to claim C7 as stated: with a 500 response, test mode on
and a logger configured, but the read of the response body failing, the
response-body diagnostic line is not written, so the stated equivalence
fails. -/
theorem background_diag_counterexample :
    (400 ≤ respReadFailEx.statusCode ∧ clientEx.testMode = true ∧ clientEx.hasLogger = true)
    ∧ ("response body: " ++ respReadFailEx.body)
        ∉ (background clientEx "req" none (some respReadFailEx)).logLines := by
  decide

/-- Claim C7 as amended: when a response is received, the status-code and
request-body diagnostic lines are written exactly when the status is at
least 400, test mode is on and a logger is configured, with the
response-body line added when reading the body succeeds; in every other
case, in particular with test mode disabled, the sink receives nothing. -/
theorem background_diagnostics (c : Client) (reqBody : String) (r : HttpResponse) :
    ((400 ≤ r.statusCode ∧ c.testMode = true ∧ c.hasLogger = true) →
      (background c reqBody none (some r)).logLines =
        ["response status: " ++ toString r.statusCode, "request body: " ++ reqBody] ++
          (if r.bodyReadOk then ["response body: " ++ r.body] else []))
    ∧ (¬ (400 ≤ r.statusCode ∧ c.testMode = true ∧ c.hasLogger = true) →
      (background c reqBody none (some r)).logLines = []) := by
  constructor <;> intro h <;> simp [background, h]

/-- Witness for background_diagnostics on concrete inputs. -/
theorem background_diagnostics_witness :
    (400 ≤ respBadEx.statusCode ∧ clientEx.testMode = true ∧ clientEx.hasLogger = true)
    ∧ (background clientEx "req" none (some respBadEx)).logLines =
        ["response status: " ++ toString respBadEx.statusCode, "request body: " ++ "req"] ++
          (if respBadEx.bodyReadOk then ["response body: " ++ respBadEx.body] else []) :=
  ⟨by decide, (background_diagnostics clientEx "req" respBadEx).1 (by decide)⟩

/-- Counterexample to claim C8 as stated: on a 200 response with a body the
background exchange closes the body but never reads it, so the body is not
drained on every exit path. -/
theorem background_body_counterexample :
    respOkEx.hasBody = true
    ∧ (background clientEx "req" none (some respOkEx)).bodyClosed = true
    ∧ (background clientEx "req" none (some respOkEx)).bodyRead = false := by
  decide

/-- Claim C8 as amended: whenever a response is present its body presence is
exactly what gets closed, on every path of the background exchange; the body
is read to completion only when the status is at least 400, test mode is on
and a logger is configured; with no response nothing is closed or read. -/
theorem background_body_handling (c : Client) (reqBody : String) (doErr : Option String)
    (r : HttpResponse) :
    (background c reqBody doErr (some r)).bodyClosed = r.hasBody
    ∧ ((background c reqBody doErr (some r)).bodyRead = true ↔
        (400 ≤ r.statusCode ∧ c.testMode = true ∧ c.hasLogger = true))
    ∧ (background c reqBody doErr none).bodyClosed = false
    ∧ (background c reqBody doErr none).bodyRead = false := by
  refine ⟨?_, ?_, ?_, ?_⟩ <;> cases doErr <;> simp [background]

/-- Claim C9: generateUserId is total and never returns the empty string, for
any environment, including one where every fallible sub-lookup failed; and
its result does not depend on the order in which the network interfaces were
enumerated, because the hardware addresses are sorted. -/
theorem generateUserId_nonempty_stable (e : SysEnv) :
    generateUserId e ≠ ""
    ∧ ∀ l₁ l₂ : List String, l₁.Perm l₂ →
        generateUserId { e with ifas := some l₁ } = generateUserId { e with ifas := some l₂ } := by
  constructor
  · intro h
    have hlen := congrArg String.length h
    have hbar : ("|" : String).length = 1 := rfl
    rcases hh : e.hostname with _ | hn <;> rcases hi : e.ifas with _ | ifl <;>
      simp [generateUserId, hh, hi, String.length_append, hbar] at hlen
  · intro l₁ l₂ hp
    have hs : List.insertionSort strLeProp (l₁.filter (fun a => a ≠ ""))
        = List.insertionSort strLeProp (l₂.filter (fun a => a ≠ "")) :=
      insertionSort_eq_of_perm (hp.filter _)
    rcases hh : e.hostname with _ | hn <;>
      simp only [generateUserId, hh] <;> rw [hs]

/-- Witness for generateUserId_nonempty_stable: interface-order invariance on
a concrete permutation, and nonemptiness on the all-failures environment. -/
theorem generateUserId_nonempty_stable_witness :
    (["b", "a"] : List String).Perm ["a", "b"]
    ∧ generateUserId envAllFailEx ≠ ""
    ∧ generateUserId { envEx with ifas := some ["b", "a"] }
        = generateUserId { envEx with ifas := some ["a", "b"] } :=
  ⟨by decide,
   (generateUserId_nonempty_stable envAllFailEx).1,
   (generateUserId_nonempty_stable envEx).2 ["b", "a"] ["a", "b"] (by decide)⟩
